import Mathlib

/-!
Verification of the NI 16550 transceiver-control core
(drivers/tty/serial/8250/8250_ni16550.c).

The hardware register file is modelled as a map from address/offset to a
stored value; reads truncate to a byte (the C reads into `uint8_t` /
`inb` returns a byte).  Every operation additionally returns the ordered
list of register accesses it performed, so that ordering and
frame-effect properties can be stated about the access trace.
-/

namespace NI16550

/-! ## Register-map constants (from the C `#define`s) -/

def NI16550_PCR_OFFSET : Nat := 0x0F
def NI16550_PCR_RS422 : Nat := 0x00
def NI16550_PCR_ECHO_RS485 : Nat := 0x01
def NI16550_PCR_DTR_RS485 : Nat := 0x02
def NI16550_PCR_AUTO_RS485 : Nat := 0x03
def NI16550_PCR_WIRE_MODE_MASK : Nat := 0x03
def NI16550_PCR_TXVR_ENABLE_BIT : Nat := 1 <<< 3
def NI16550_PCR_RS485_TERMINATION_BIT : Nat := 1 <<< 6

def NI16550_PMR_OFFSET : Nat := 0x0E
def NI16550_PMR_CAP_MASK : Nat := 0x03
def NI16550_PMR_NOT_IMPL : Nat := 0x00
def NI16550_PMR_CAP_RS232 : Nat := 0x01
def NI16550_PMR_CAP_RS485 : Nat := 0x02
def NI16550_PMR_CAP_DUAL : Nat := 0x03
def NI16550_PMR_MODE_MASK : Nat := 0x10
def NI16550_PMR_MODE_RS232 : Nat := 0x00
def NI16550_PMR_MODE_RS485 : Nat := 0x10

/-! Standard 8250 register constants used by `ni16550_config_prescaler`
(values from include/uapi/linux/serial_reg.h). -/

def UART_LCR : Nat := 3
def UART_LCR_CONF_MODE_B : Nat := 0xBF
def UART_EFR : Nat := 2
def UART_EFR_ECB : Nat := 0x10
def UART_SCR : Nat := 7
def UART_ICR : Nat := 5
def UART_CPR : Nat := 0x01

/-! RS-485 flag bits of `struct serial_rs485`
(values from include/uapi/linux/serial.h). -/

def SER_RS485_ENABLED : Nat := 1 <<< 0
def SER_RS485_RTS_ON_SEND : Nat := 1 <<< 1
def SER_RS485_RTS_AFTER_SEND : Nat := 1 <<< 2
def SER_RS485_RX_DURING_TX : Nat := 1 <<< 4

def EINVAL : Int := 22

/-! ## Data model -/

/-- One hardware register access: offset/address and the byte moved. -/
inductive RegEvent where
  | read : Nat → Nat → RegEvent
  | write : Nat → Nat → RegEvent
  deriving DecidableEq, Repr

def RegEvent.isWrite : RegEvent → Bool
  | .read _ _ => false
  | .write _ _ => true

/-- The write events of a trace, in order. -/
def writesOf (t : List RegEvent) : List RegEvent :=
  t.filter RegEvent.isWrite

/-- `struct serial_rs485`: a flag bitset, two turn-around delays and
reserved padding.  The core interprets only `flags`. -/
structure SerialRS485 where
  flags : Nat
  delay_rts_before_send : Nat
  delay_rts_after_send : Nat
  padding : List Nat
  deriving DecidableEq, Repr

/-- Which transceiver-operation table is bound to the port
(`port->txvr_ops` is a function-pointer table in the C). -/
inductive TxvrOpsTag where
  | unbound
  | niTxvrOps
  deriving DecidableEq, Repr

/-- Which `rs485_config` callback is bound to the port. -/
inductive RS485ConfigTag where
  | unbound
  | niConfigRS485
  deriving DecidableEq, Repr

/-- The slice of `struct uart_port` this driver touches: the register
file behind `serial_in`/`serial_out`, the cached RS-485 configuration
`port->rs485`, and the two bound operation pointers. -/
structure UartPort where
  regs : Nat → Nat
  rs485 : SerialRS485
  txvr_ops : TxvrOpsTag
  rs485_config : RS485ConfigTag

/-- `port->serial_in(port, offset)`: returns the register byte. -/
def serial_in (port : UartPort) (offset : Nat) : Nat :=
  port.regs offset % 256

/-- `port->serial_out(port, offset, value)`: stores to the register. -/
def serial_out (port : UartPort) (offset value : Nat) : UartPort :=
  { port with regs := fun o => if o = offset then value else port.regs o }

/-- `inb(addr)` on the io-port space. -/
def inb (io : Nat → Nat) (addr : Nat) : Nat :=
  io addr % 256

/-- `outb(value, addr)` on the io-port space. -/
def outb (io : Nat → Nat) (value addr : Nat) : Nat → Nat :=
  fun a => if a = addr then value else io a

/-! ## The four operations, embedded from the source -/

/-- `ni16550_enable_transceivers`: read PCR, set the transceiver-enable
bit, write it back, return 0.  Also yields the access trace. -/
def ni16550_enable_transceivers (port : UartPort) :
    UartPort × List RegEvent × Int :=
  let pcr := serial_in port NI16550_PCR_OFFSET
  let pcr2 := pcr ||| NI16550_PCR_TXVR_ENABLE_BIT
  (serial_out port NI16550_PCR_OFFSET pcr2,
   [RegEvent.read NI16550_PCR_OFFSET pcr,
    RegEvent.write NI16550_PCR_OFFSET pcr2],
   0)

/-- `ni16550_disable_transceivers`: read PCR, clear the
transceiver-enable bit (the C `pcr &= ~BIT` on a `uint8_t` is an AND
with the byte complement), write it back, return 0. -/
def ni16550_disable_transceivers (port : UartPort) :
    UartPort × List RegEvent × Int :=
  let pcr := serial_in port NI16550_PCR_OFFSET
  let pcr2 := pcr &&& (0xFF ^^^ NI16550_PCR_TXVR_ENABLE_BIT)
  (serial_out port NI16550_PCR_OFFSET pcr2,
   [RegEvent.read NI16550_PCR_OFFSET pcr,
    RegEvent.write NI16550_PCR_OFFSET pcr2],
   0)

/-- `ni16550_config_rs485`: read PCR and clear the wire-mode field in a
local copy; reject enabled+echo+auto as `-EINVAL` before any write;
otherwise merge the selected wire-mode encoding, write the byte back
and overwrite the cached `port->rs485` with the argument.  The `rs485`
argument is taken by value, so the C `BUG_ON(rs485 == NULL)` null
guard has no counterpart here. -/
def ni16550_config_rs485 (port : UartPort) (rs485 : SerialRS485) :
    UartPort × List RegEvent × Int :=
  let pcrIn := serial_in port NI16550_PCR_OFFSET
  let pcr := pcrIn &&& (0xFF ^^^ NI16550_PCR_WIRE_MODE_MASK)
  if rs485.flags &&& SER_RS485_ENABLED ≠ 0 then
    if rs485.flags &&& SER_RS485_RX_DURING_TX ≠ 0 ∧
        rs485.flags &&& SER_RS485_RTS_ON_SEND ≠ 0 then
      (port, [RegEvent.read NI16550_PCR_OFFSET pcrIn], -EINVAL)
    else
      let pcr2 :=
        if rs485.flags &&& SER_RS485_RX_DURING_TX ≠ 0 then
          pcr ||| NI16550_PCR_ECHO_RS485
        else if rs485.flags &&& SER_RS485_RTS_ON_SEND ≠ 0 then
          pcr ||| NI16550_PCR_AUTO_RS485
        else
          pcr ||| NI16550_PCR_DTR_RS485
      ({ serial_out port NI16550_PCR_OFFSET pcr2 with rs485 := rs485 },
       [RegEvent.read NI16550_PCR_OFFSET pcrIn,
        RegEvent.write NI16550_PCR_OFFSET pcr2],
       0)
  else
    let pcr2 := pcr ||| NI16550_PCR_RS422
    ({ serial_out port NI16550_PCR_OFFSET pcr2 with rs485 := rs485 },
     [RegEvent.read NI16550_PCR_OFFSET pcrIn,
      RegEvent.write NI16550_PCR_OFFSET pcr2],
     0)

/-- `is_rs232_mode`: read the PMR byte; unimplemented ports default to
RS-485 (false); dual-mode ports report their mode bit; single-mode
ports report whether they are RS-232-capable. -/
def is_rs232_mode (io : Nat → Nat) (iobase : Nat) : Bool :=
  let pmr := inb io (iobase + NI16550_PMR_OFFSET)
  if pmr &&& NI16550_PMR_CAP_MASK = NI16550_PMR_NOT_IMPL then
    false
  else if pmr &&& NI16550_PMR_CAP_MASK = NI16550_PMR_CAP_DUAL then
    pmr &&& NI16550_PMR_MODE_MASK = NI16550_PMR_MODE_RS232
  else
    pmr &&& NI16550_PMR_CAP_MASK = NI16550_PMR_CAP_RS232

/-- `ni16550_config_prescaler`: save LCR, page in the enhanced bank via
configuration mode B, OR the enhanced-mode-enable bit into EFR, restore
LCR (paging the bank out), then program the prescaler through the
SCR/ICR indirect-addressing pair.  Returns the final io-port state and
the full access trace. -/
def ni16550_config_prescaler (io : Nat → Nat) (iobase prescaler : Nat) :
    (Nat → Nat) × List RegEvent :=
  let lcr_value := inb io (iobase + UART_LCR)
  let io1 := outb io UART_LCR_CONF_MODE_B (iobase + UART_LCR)
  let efr_value := inb io1 (iobase + UART_EFR)
  let efr_value2 := efr_value ||| UART_EFR_ECB
  let io2 := outb io1 efr_value2 (iobase + UART_EFR)
  let io3 := outb io2 lcr_value (iobase + UART_LCR)
  let io4 := outb io3 UART_CPR (iobase + UART_SCR)
  let io5 := outb io4 prescaler (iobase + UART_ICR)
  (io5,
   [RegEvent.read (iobase + UART_LCR) lcr_value,
    RegEvent.write (iobase + UART_LCR) UART_LCR_CONF_MODE_B,
    RegEvent.read (iobase + UART_EFR) efr_value,
    RegEvent.write (iobase + UART_EFR) efr_value2,
    RegEvent.write (iobase + UART_LCR) lcr_value,
    RegEvent.write (iobase + UART_SCR) UART_CPR,
    RegEvent.write (iobase + UART_ICR) prescaler])

/-- The static `ni16550_txvr_ops` table. -/
structure TxvrOps where
  enable_transceivers : UartPort → UartPort × List RegEvent × Int
  disable_transceivers : UartPort → UartPort × List RegEvent × Int

def ni16550_txvr_ops : TxvrOps :=
  { enable_transceivers := ni16550_enable_transceivers
    disable_transceivers := ni16550_disable_transceivers }

/-- `ni16550_port_setup`: bind the transceiver operation table and the
RS-485 configuration callback, and seed the cached flags to the
2-wire-auto hardware default.  Only the `flags` field of `port->rs485`
is assigned. -/
def ni16550_port_setup (port : UartPort) : UartPort :=
  { port with
    txvr_ops := TxvrOpsTag.niTxvrOps
    rs485_config := RS485ConfigTag.niConfigRS485
    rs485 := { port.rs485 with
               flags := SER_RS485_ENABLED ||| SER_RS485_RTS_ON_SEND } }

/-! ## Derived notions used by the claims -/

/-- A configuration the validator accepts: not
(enabled ∧ receive-during-transmit ∧ RTS-on-send). -/
def rs485_accepted (c : SerialRS485) : Bool :=
  decide (¬(c.flags &&& SER_RS485_ENABLED ≠ 0 ∧
            c.flags &&& SER_RS485_RX_DURING_TX ≠ 0 ∧
            c.flags &&& SER_RS485_RTS_ON_SEND ≠ 0))

/-- Apply a sequence of `ni16550_config_rs485` calls, threading the
port state. -/
def applyConfigs (port : UartPort) (cfgs : List SerialRS485) : UartPort :=
  cfgs.foldl (fun p c => (ni16550_config_rs485 p c).1) port

/-- The last accepted configuration of a sequence, defaulting to `d`
when none is accepted. -/
def lastAcceptedFrom (d : SerialRS485) (cfgs : List SerialRS485) : SerialRS485 :=
  cfgs.foldl (fun acc c => if rs485_accepted c then c else acc) d

/-- Concrete configuration asking for echo mode (enabled + rx-during-tx). -/
def cfgEcho : SerialRS485 :=
  { flags := SER_RS485_ENABLED ||| SER_RS485_RX_DURING_TX
    delay_rts_before_send := 0
    delay_rts_after_send := 0
    padding := [] }

/-- Concrete configuration that the validator rejects
(enabled + rx-during-tx + RTS-on-send). -/
def cfgInvalid : SerialRS485 :=
  { flags := SER_RS485_ENABLED ||| SER_RS485_RTS_ON_SEND |||
      SER_RS485_RX_DURING_TX
    delay_rts_before_send := 7
    delay_rts_after_send := 9
    padding := [] }

/-- A fixed concrete port used by witness instantiations. -/
def testPort : UartPort :=
  { regs := fun _ => 0x48
    rs485 := { flags := 0, delay_rts_before_send := 0,
               delay_rts_after_send := 0, padding := [0, 0, 0, 0, 0] }
    txvr_ops := TxvrOpsTag.unbound
    rs485_config := RS485ConfigTag.unbound }

end NI16550

/-! ## Byte-arithmetic helper facts -/

set_option maxRecDepth 10000

namespace NI16550

lemma wire_merge_byte : ∀ x < 256, ∀ e < 4,
    ((x &&& 0xFC) ||| e) &&& 0x03 = e ∧
    ((x &&& 0xFC) ||| e) &&& 0xFC = x &&& 0xFC := by decide

lemma pcr_byte_lt (port : UartPort) :
    serial_in port NI16550_PCR_OFFSET < 256 :=
  Nat.mod_lt _ (by norm_num)

/-- C1: for every configuration accepted by `ni16550_config_rs485`, the
wire-mode field of the mode-control register after the call is RS-422
when the enabled flag is clear, echo when enabled with
receive-during-transmit, auto when enabled with RTS-on-send only, and
DTR-controlled when enabled with neither flag. -/
theorem config_rs485_wire_mode (port : UartPort) (c : SerialRS485)
    (h : ¬(c.flags &&& SER_RS485_ENABLED ≠ 0 ∧
           c.flags &&& SER_RS485_RX_DURING_TX ≠ 0 ∧
           c.flags &&& SER_RS485_RTS_ON_SEND ≠ 0)) :
    (ni16550_config_rs485 port c).1.regs NI16550_PCR_OFFSET &&&
        NI16550_PCR_WIRE_MODE_MASK =
      (if c.flags &&& SER_RS485_ENABLED = 0 then NI16550_PCR_RS422
       else if c.flags &&& SER_RS485_RX_DURING_TX ≠ 0 then NI16550_PCR_ECHO_RS485
       else if c.flags &&& SER_RS485_RTS_ON_SEND ≠ 0 then NI16550_PCR_AUTO_RS485
       else NI16550_PCR_DTR_RS485) := by
  have hx := pcr_byte_lt port
  by_cases hEn : c.flags &&& SER_RS485_ENABLED = 0
  · simp only [ni16550_config_rs485, serial_out]
    simp [hEn]
    exact (wire_merge_byte _ hx 0 (by norm_num)).1
  · by_cases hRx : c.flags &&& SER_RS485_RX_DURING_TX = 0
    · by_cases hRts : c.flags &&& SER_RS485_RTS_ON_SEND = 0
      · simp only [ni16550_config_rs485, serial_out]
        simp [hEn, hRx, hRts]
        exact (wire_merge_byte _ hx 2 (by norm_num)).1
      · simp only [ni16550_config_rs485, serial_out]
        simp [hEn, hRx, hRts]
        exact (wire_merge_byte _ hx 3 (by norm_num)).1
    · have hRts : c.flags &&& SER_RS485_RTS_ON_SEND = 0 := by
        by_contra hr
        exact h ⟨hEn, hRx, hr⟩
      simp only [ni16550_config_rs485, serial_out]
      simp [hEn, hRx, hRts]
      exact (wire_merge_byte _ hx 1 (by norm_num)).1

end NI16550

namespace NI16550

/-- C1 witness: on a concrete port, configuring echo mode yields the
echo wire-mode encoding. -/
theorem config_rs485_wire_mode_witness :
    (ni16550_config_rs485 testPort cfgEcho).1.regs NI16550_PCR_OFFSET &&&
        NI16550_PCR_WIRE_MODE_MASK = NI16550_PCR_ECHO_RS485 := by
  have h := config_rs485_wire_mode testPort cfgEcho (by decide)
  rw [h]
  decide

/-- C2: `ni16550_config_rs485` returns `-EINVAL` exactly when the
configuration is enabled with both receive-during-transmit and
RTS-on-send; on that path the port (registers and cached `rs485`) is
untouched and no write event occurs; every other configuration
returns 0. -/
theorem config_rs485_reject (port : UartPort) (c : SerialRS485) :
    ((ni16550_config_rs485 port c).2.2 = -EINVAL ↔
      (c.flags &&& SER_RS485_ENABLED ≠ 0 ∧
       c.flags &&& SER_RS485_RX_DURING_TX ≠ 0 ∧
       c.flags &&& SER_RS485_RTS_ON_SEND ≠ 0)) ∧
    ((c.flags &&& SER_RS485_ENABLED ≠ 0 ∧
      c.flags &&& SER_RS485_RX_DURING_TX ≠ 0 ∧
      c.flags &&& SER_RS485_RTS_ON_SEND ≠ 0) →
      (ni16550_config_rs485 port c).1 = port ∧
      writesOf (ni16550_config_rs485 port c).2.1 = []) ∧
    (¬(c.flags &&& SER_RS485_ENABLED ≠ 0 ∧
       c.flags &&& SER_RS485_RX_DURING_TX ≠ 0 ∧
       c.flags &&& SER_RS485_RTS_ON_SEND ≠ 0) →
      (ni16550_config_rs485 port c).2.2 = 0) := by
  by_cases hEn : c.flags &&& SER_RS485_ENABLED = 0
  · simp [ni16550_config_rs485, hEn, EINVAL]
  · by_cases hRx : c.flags &&& SER_RS485_RX_DURING_TX = 0
    · by_cases hRts : c.flags &&& SER_RS485_RTS_ON_SEND = 0
      · simp [ni16550_config_rs485, hEn, hRx, hRts, EINVAL]
      · simp [ni16550_config_rs485, hEn, hRx, hRts, EINVAL]
    · by_cases hRts : c.flags &&& SER_RS485_RTS_ON_SEND = 0
      · simp [ni16550_config_rs485, hEn, hRx, hRts, EINVAL]
      · simp [ni16550_config_rs485, writesOf, RegEvent.isWrite, hEn, hRx,
          hRts, EINVAL]

/-- C2 witness: the concrete invalid configuration is rejected with no
state change and no write events. -/
theorem config_rs485_reject_witness :
    (ni16550_config_rs485 testPort cfgInvalid).2.2 = -EINVAL ∧
    (ni16550_config_rs485 testPort cfgInvalid).1 = testPort ∧
    writesOf (ni16550_config_rs485 testPort cfgInvalid).2.1 = [] := by
  have h := config_rs485_reject testPort cfgInvalid
  exact ⟨h.1.mpr (by decide), (h.2.1 (by decide)).1, (h.2.1 (by decide)).2⟩

lemma config_rs485_cache_step (p : UartPort) (c : SerialRS485) :
    (ni16550_config_rs485 p c).1.rs485 =
      if rs485_accepted c then c else p.rs485 := by
  by_cases hEn : c.flags &&& SER_RS485_ENABLED = 0
  · simp [ni16550_config_rs485, serial_out, rs485_accepted, hEn]
  · by_cases hRx : c.flags &&& SER_RS485_RX_DURING_TX = 0
    · simp [ni16550_config_rs485, serial_out, rs485_accepted, hEn, hRx]
    · by_cases hRts : c.flags &&& SER_RS485_RTS_ON_SEND = 0
      · simp [ni16550_config_rs485, serial_out, rs485_accepted, hEn, hRx, hRts]
      · simp [ni16550_config_rs485, serial_out, rs485_accepted, hEn, hRx, hRts]

/-- C3: after any sequence of `ni16550_config_rs485` calls, the cached
configuration equals the argument of the last accepted call (the
initial cache when none was accepted), and a call succeeds (returns 0)
exactly when the validator accepts its argument. -/
theorem config_rs485_cache_invariant (port : UartPort)
    (cfgs : List SerialRS485) :
    (applyConfigs port cfgs).rs485 = lastAcceptedFrom port.rs485 cfgs ∧
    ∀ c, ((ni16550_config_rs485 port c).2.2 = 0 ↔ rs485_accepted c = true) := by
  constructor
  · induction cfgs generalizing port with
    | nil => rfl
    | cons c cs ih =>
      have h1 : applyConfigs port (c :: cs) =
          applyConfigs (ni16550_config_rs485 port c).1 cs := rfl
      have h2 : lastAcceptedFrom port.rs485 (c :: cs) =
          lastAcceptedFrom (if rs485_accepted c then c else port.rs485) cs := rfl
      rw [h1, h2, ih, config_rs485_cache_step]
  · intro c
    by_cases hEn : c.flags &&& SER_RS485_ENABLED = 0
    · simp [ni16550_config_rs485, rs485_accepted, hEn]
    · by_cases hRx : c.flags &&& SER_RS485_RX_DURING_TX = 0
      · simp [ni16550_config_rs485, rs485_accepted, hEn, hRx]
      · by_cases hRts : c.flags &&& SER_RS485_RTS_ON_SEND = 0
        · simp [ni16550_config_rs485, rs485_accepted, hEn, hRx, hRts]
        · simp [ni16550_config_rs485, rs485_accepted, hEn, hRx, hRts, EINVAL]

/-- C3 witness: a concrete sequence (accepted echo, rejected invalid)
leaves the cache at the echo configuration. -/
theorem config_rs485_cache_invariant_witness :
    (applyConfigs testPort [cfgEcho, cfgInvalid]).rs485 = cfgEcho ∧
    ((ni16550_config_rs485 testPort cfgInvalid).2.2 = 0 ↔
      rs485_accepted cfgInvalid = true) := by
  have h := config_rs485_cache_invariant testPort [cfgEcho, cfgInvalid]
  refine ⟨?_, h.2 cfgInvalid⟩
  rw [h.1]
  decide

end NI16550

namespace NI16550

lemma rs232_byte_cases : ∀ p : Nat, p < 256 →
    ((if p &&& NI16550_PMR_CAP_MASK = NI16550_PMR_NOT_IMPL then false
      else if p &&& NI16550_PMR_CAP_MASK = NI16550_PMR_CAP_DUAL then
        decide (p &&& NI16550_PMR_MODE_MASK = NI16550_PMR_MODE_RS232)
      else decide (p &&& NI16550_PMR_CAP_MASK = NI16550_PMR_CAP_RS232)) = true ↔
      (p % 4 = 1 ∨ (p % 4 = 3 ∧ p.testBit 4 = false))) := by
  decide

/-- C4: `is_rs232_mode` is a pure function of the capability byte: it
is true exactly when the capability class (low two bits) is
RS-232-only, or is dual-mode with the bit-4 mode flag clear; in
particular it is false for an unimplemented class (00) whatever the
other bits, and false for an RS-485-only class (10). -/
theorem is_rs232_mode_cases (io : Nat → Nat) (iobase : Nat) :
    (is_rs232_mode io iobase = true ↔
      ((io (iobase + NI16550_PMR_OFFSET) % 256) % 4 = 1 ∨
       ((io (iobase + NI16550_PMR_OFFSET) % 256) % 4 = 3 ∧
        Nat.testBit (io (iobase + NI16550_PMR_OFFSET) % 256) 4 = false))) := by
  have hp : io (iobase + NI16550_PMR_OFFSET) % 256 < 256 :=
    Nat.mod_lt _ (by norm_num)
  have h := rs232_byte_cases (io (iobase + NI16550_PMR_OFFSET) % 256) hp
  simpa [is_rs232_mode, inb] using h

/-- C4 witness: a concrete dual-mode capability byte with the mode bit
set (0x13) is not RS-232. -/
theorem is_rs232_mode_cases_witness :
    is_rs232_mode (fun _ => 0x13) 0 = false := by
  have h := is_rs232_mode_cases (fun _ => 0x13) 0
  have h2 : ¬((0x13 : Nat) % 4 = 1 ∨
      ((0x13 : Nat) % 4 = 3 ∧ Nat.testBit 0x13 4 = false)) := by decide
  simp only [Bool.not_eq_true] at *
  cases hb : is_rs232_mode (fun _ => 0x13) 0
  · rfl
  · exact absurd (h.mp hb) (by simpa using h2)

/-- C5: `ni16550_config_prescaler` performs exactly, and in this order:
read LCR, write configuration-mode-B to LCR, read EFR, write EFR with
the enhanced-enable bit ORed in, write the saved LCR value back, write
the CPR-select sentinel to SCR, write the prescaler to ICR — so the
LCR restore precedes the SCR/ICR indirect writes and the EFR bit is
never restored. -/
theorem config_prescaler_trace (io : Nat → Nat) (iobase prescaler : Nat) :
    (ni16550_config_prescaler io iobase prescaler).2 =
      [RegEvent.read (iobase + UART_LCR) (io (iobase + UART_LCR) % 256),
       RegEvent.write (iobase + UART_LCR) UART_LCR_CONF_MODE_B,
       RegEvent.read (iobase + UART_EFR) (io (iobase + UART_EFR) % 256),
       RegEvent.write (iobase + UART_EFR)
         ((io (iobase + UART_EFR) % 256) ||| UART_EFR_ECB),
       RegEvent.write (iobase + UART_LCR) (io (iobase + UART_LCR) % 256),
       RegEvent.write (iobase + UART_SCR) UART_CPR,
       RegEvent.write (iobase + UART_ICR) prescaler] := by
  have hne : iobase + UART_EFR ≠ iobase + UART_LCR := by
    simp [UART_EFR, UART_LCR]
  simp [ni16550_config_prescaler, inb, outb, hne]

end NI16550

namespace NI16550

/-- C6: an accepted `ni16550_config_rs485` call changes only the
wire-mode field of the mode-control register: every bit outside the
wire-mode mask keeps its pre-call value, and no other register is
touched. -/
theorem config_rs485_frame (port : UartPort) (c : SerialRS485)
    (h : ¬(c.flags &&& SER_RS485_ENABLED ≠ 0 ∧
           c.flags &&& SER_RS485_RX_DURING_TX ≠ 0 ∧
           c.flags &&& SER_RS485_RTS_ON_SEND ≠ 0)) :
    (ni16550_config_rs485 port c).1.regs NI16550_PCR_OFFSET &&&
        (0xFF ^^^ NI16550_PCR_WIRE_MODE_MASK) =
      serial_in port NI16550_PCR_OFFSET &&&
        (0xFF ^^^ NI16550_PCR_WIRE_MODE_MASK) ∧
    ∀ off, off ≠ NI16550_PCR_OFFSET →
      (ni16550_config_rs485 port c).1.regs off = port.regs off := by
  have hx := pcr_byte_lt port
  constructor
  · by_cases hEn : c.flags &&& SER_RS485_ENABLED = 0
    · simp only [ni16550_config_rs485, serial_out]
      simp [hEn]
      exact (wire_merge_byte _ hx 0 (by norm_num)).2
    · by_cases hRx : c.flags &&& SER_RS485_RX_DURING_TX = 0
      · by_cases hRts : c.flags &&& SER_RS485_RTS_ON_SEND = 0
        · simp only [ni16550_config_rs485, serial_out]
          simp [hEn, hRx, hRts]
          exact (wire_merge_byte _ hx 2 (by norm_num)).2
        · simp only [ni16550_config_rs485, serial_out]
          simp [hEn, hRx, hRts]
          exact (wire_merge_byte _ hx 3 (by norm_num)).2
      · have hRts : c.flags &&& SER_RS485_RTS_ON_SEND = 0 := by
          by_contra hr
          exact h ⟨hEn, hRx, hr⟩
        simp only [ni16550_config_rs485, serial_out]
        simp [hEn, hRx, hRts]
        exact (wire_merge_byte _ hx 1 (by norm_num)).2
  · intro off hoff
    by_cases hEn : c.flags &&& SER_RS485_ENABLED = 0
    · simp [ni16550_config_rs485, serial_out, hEn, hoff]
    · by_cases hRx : c.flags &&& SER_RS485_RX_DURING_TX = 0
      · by_cases hRts : c.flags &&& SER_RS485_RTS_ON_SEND = 0
        · simp [ni16550_config_rs485, serial_out, hEn, hRx, hRts, hoff]
        · simp [ni16550_config_rs485, serial_out, hEn, hRx, hRts, hoff]
      · have hRts : c.flags &&& SER_RS485_RTS_ON_SEND = 0 := by
          by_contra hr
          exact h ⟨hEn, hRx, hr⟩
        simp [ni16550_config_rs485, serial_out, hEn, hRx, hRts, hoff]

/-- C6 witness: on the concrete port (PCR byte 0x48), configuring echo
mode leaves the bits outside the wire-mode mask and the register at
offset 0 unchanged. -/
theorem config_rs485_frame_witness :
    (ni16550_config_rs485 testPort cfgEcho).1.regs NI16550_PCR_OFFSET &&&
        (0xFF ^^^ NI16550_PCR_WIRE_MODE_MASK) =
      serial_in testPort NI16550_PCR_OFFSET &&&
        (0xFF ^^^ NI16550_PCR_WIRE_MODE_MASK) ∧
    (ni16550_config_rs485 testPort cfgEcho).1.regs 0 = testPort.regs 0 := by
  have h := config_rs485_frame testPort cfgEcho (by decide)
  exact ⟨h.1, h.2 0 (by decide)⟩

lemma txvr_byte : ∀ x : Nat, x < 256 →
    (x ||| NI16550_PCR_TXVR_ENABLE_BIT).testBit 3 = true ∧
    (x ||| NI16550_PCR_TXVR_ENABLE_BIT) &&&
        (0xFF ^^^ NI16550_PCR_TXVR_ENABLE_BIT) =
      x &&& (0xFF ^^^ NI16550_PCR_TXVR_ENABLE_BIT) ∧
    (x &&& (0xFF ^^^ NI16550_PCR_TXVR_ENABLE_BIT)).testBit 3 = false ∧
    (x &&& (0xFF ^^^ NI16550_PCR_TXVR_ENABLE_BIT)) &&&
        (0xFF ^^^ NI16550_PCR_TXVR_ENABLE_BIT) =
      x &&& (0xFF ^^^ NI16550_PCR_TXVR_ENABLE_BIT) := by
  decide

/-- C7: enable performs exactly one PCR read and one PCR write of the
read byte with the enable bit set; disable likewise with the bit
cleared; in both cases all bits outside the enable bit are unchanged
and the return value is 0. -/
theorem transceiver_rmw_contract (port : UartPort) :
    (ni16550_enable_transceivers port).2.1 =
      [RegEvent.read NI16550_PCR_OFFSET (serial_in port NI16550_PCR_OFFSET),
       RegEvent.write NI16550_PCR_OFFSET
         (serial_in port NI16550_PCR_OFFSET ||| NI16550_PCR_TXVR_ENABLE_BIT)] ∧
    (ni16550_disable_transceivers port).2.1 =
      [RegEvent.read NI16550_PCR_OFFSET (serial_in port NI16550_PCR_OFFSET),
       RegEvent.write NI16550_PCR_OFFSET
         (serial_in port NI16550_PCR_OFFSET &&&
           (0xFF ^^^ NI16550_PCR_TXVR_ENABLE_BIT))] ∧
    (serial_in port NI16550_PCR_OFFSET |||
        NI16550_PCR_TXVR_ENABLE_BIT).testBit 3 = true ∧
    (serial_in port NI16550_PCR_OFFSET ||| NI16550_PCR_TXVR_ENABLE_BIT) &&&
        (0xFF ^^^ NI16550_PCR_TXVR_ENABLE_BIT) =
      serial_in port NI16550_PCR_OFFSET &&&
        (0xFF ^^^ NI16550_PCR_TXVR_ENABLE_BIT) ∧
    (serial_in port NI16550_PCR_OFFSET &&&
        (0xFF ^^^ NI16550_PCR_TXVR_ENABLE_BIT)).testBit 3 = false ∧
    (serial_in port NI16550_PCR_OFFSET &&&
        (0xFF ^^^ NI16550_PCR_TXVR_ENABLE_BIT)) &&&
        (0xFF ^^^ NI16550_PCR_TXVR_ENABLE_BIT) =
      serial_in port NI16550_PCR_OFFSET &&&
        (0xFF ^^^ NI16550_PCR_TXVR_ENABLE_BIT) ∧
    (ni16550_enable_transceivers port).2.2 = 0 ∧
    (ni16550_disable_transceivers port).2.2 = 0 := by
  have hb := txvr_byte _ (pcr_byte_lt port)
  exact ⟨rfl, rfl, hb.1, hb.2.1, hb.2.2.1, hb.2.2.2, rfl, rfl⟩

lemma txvr_seq_byte : ∀ x : Nat, x < 256 →
    ((x ||| NI16550_PCR_TXVR_ENABLE_BIT) % 256 |||
        NI16550_PCR_TXVR_ENABLE_BIT = x ||| NI16550_PCR_TXVR_ENABLE_BIT) ∧
    ((x &&& (0xFF ^^^ NI16550_PCR_TXVR_ENABLE_BIT)) % 256 &&&
        (0xFF ^^^ NI16550_PCR_TXVR_ENABLE_BIT) =
      x &&& (0xFF ^^^ NI16550_PCR_TXVR_ENABLE_BIT)) ∧
    ((((x ||| NI16550_PCR_TXVR_ENABLE_BIT) % 256 &&&
        (0xFF ^^^ NI16550_PCR_TXVR_ENABLE_BIT)) % 256 |||
        NI16550_PCR_TXVR_ENABLE_BIT) &&& NI16550_PCR_WIRE_MODE_MASK =
      x &&& NI16550_PCR_WIRE_MODE_MASK) := by
  decide

/-- C9: enable and disable are idempotent on the mode-control register
value, and the sequence enable-disable-enable leaves the wire-mode
bits equal to their value before the sequence. -/
theorem transceiver_idempotent (port : UartPort) :
    (ni16550_enable_transceivers
        (ni16550_enable_transceivers port).1).1.regs NI16550_PCR_OFFSET =
      (ni16550_enable_transceivers port).1.regs NI16550_PCR_OFFSET ∧
    (ni16550_disable_transceivers
        (ni16550_disable_transceivers port).1).1.regs NI16550_PCR_OFFSET =
      (ni16550_disable_transceivers port).1.regs NI16550_PCR_OFFSET ∧
    (ni16550_enable_transceivers (ni16550_disable_transceivers
        (ni16550_enable_transceivers port).1).1).1.regs NI16550_PCR_OFFSET &&&
        NI16550_PCR_WIRE_MODE_MASK =
      serial_in port NI16550_PCR_OFFSET &&& NI16550_PCR_WIRE_MODE_MASK := by
  have hb := txvr_seq_byte _ (pcr_byte_lt port)
  simp only [ni16550_enable_transceivers, ni16550_disable_transceivers,
    serial_in, serial_out]
  simp
  exact ⟨hb.1, hb.2.1, hb.2.2⟩

/-- C8: `ni16550_port_setup` binds the NI transceiver operation table
(whose entries are the enable/disable operations) and the NI RS-485
configuration callback, and seeds the cached flags to exactly
enabled + RTS-on-send (2-wire auto), with receive-during-transmit
clear. -/
theorem port_setup_bindings (port : UartPort) :
    (ni16550_port_setup port).txvr_ops = TxvrOpsTag.niTxvrOps ∧
    (ni16550_port_setup port).rs485_config = RS485ConfigTag.niConfigRS485 ∧
    ni16550_txvr_ops.enable_transceivers = ni16550_enable_transceivers ∧
    ni16550_txvr_ops.disable_transceivers = ni16550_disable_transceivers ∧
    (ni16550_port_setup port).rs485.flags =
      SER_RS485_ENABLED ||| SER_RS485_RTS_ON_SEND ∧
    (ni16550_port_setup port).rs485.flags &&& SER_RS485_ENABLED ≠ 0 ∧
    (ni16550_port_setup port).rs485.flags &&& SER_RS485_RTS_ON_SEND ≠ 0 ∧
    (ni16550_port_setup port).rs485.flags &&& SER_RS485_RX_DURING_TX = 0 := by
  refine ⟨rfl, rfl, rfl, rfl, rfl, ?_, ?_, ?_⟩
  · show (SER_RS485_ENABLED ||| SER_RS485_RTS_ON_SEND) &&&
      SER_RS485_ENABLED ≠ 0
    decide
  · show (SER_RS485_ENABLED ||| SER_RS485_RTS_ON_SEND) &&&
      SER_RS485_RTS_ON_SEND ≠ 0
    decide
  · show (SER_RS485_ENABLED ||| SER_RS485_RTS_ON_SEND) &&&
      SER_RS485_RX_DURING_TX = 0
    decide

/-- C10: `ni16550_port_setup` assigns only the `flags` field of the
cached configuration: the delay fields, the padding and the register
file are all left at their pre-call values. -/
theorem port_setup_frame (port : UartPort) :
    (ni16550_port_setup port).rs485.delay_rts_before_send =
      port.rs485.delay_rts_before_send ∧
    (ni16550_port_setup port).rs485.delay_rts_after_send =
      port.rs485.delay_rts_after_send ∧
    (ni16550_port_setup port).rs485.padding = port.rs485.padding ∧
    (ni16550_port_setup port).regs = port.regs :=
  ⟨rfl, rfl, rfl, rfl⟩

end NI16550
